import Mathlib

/-!
Verification development for the RAG chat application.

The repository has two request handlers:
  * a direct semantic-search route (embed the question, k-NN search against
    the OpenSearch index, build a context window, call the generation model);
  * a delegate route that forwards the question to a Langflow orchestrator
    and normalizes its heterogeneous JSON response.

Both handlers, the context-assembly function, the Langflow answer
normalization, and the two TLS-verification resolvers are embedded below as
executable Lean functions, translated statement by statement from the
TypeScript and JavaScript sources.  External effects (the embedding call,
the search fetch, the generation call, the upstream Langflow response and
the result of the JavaScript JSON.parse builtin) are modelled as explicit
outcome values passed into the handler functions, so that each handler is a
pure function of its request and of the outcomes of its external calls.
-/

/-! ## A model of JavaScript JSON values

Parsed JSON as manipulated by the route handlers.  JSON numbers are
modelled as integers: no claim and no code path under verification inspects
a fractional numeric value coming from a parsed body.  An absent object
property (JavaScript undefined) is represented by Option.none at use sites.
-/

inductive JValue where
  | null : JValue
  | bool (b : Bool) : JValue
  | num (n : Int) : JValue
  | str (s : String) : JValue
  | arr (elems : List JValue) : JValue
  | obj (fields : List (String × JValue)) : JValue

/-- JavaScript truthiness of a defined value: null, false, 0 and the empty
string are falsy; every array and object is truthy. -/
def jTruthy : JValue → Bool
  | .null => false
  | .bool b => b
  | .num n => !(n == 0)
  | .str s => !(s == "")
  | .arr _ => true
  | .obj _ => true

/-- Property access on a value that is not null: objects look the field up,
primitives and arrays yield undefined (none).  Callers model the JavaScript
TypeError on null targets by checking for null before calling this. -/
def jField : JValue → String → Option JValue
  | .obj fs, k => fs.lookup k
  | _, _ => none

/-- Optional-chaining access a?.k: undefined and null targets short-circuit
to undefined instead of throwing. -/
def jOptGet : Option JValue → String → Option JValue
  | none, _ => none
  | some .null, _ => none
  | some v, k => jField v k

/-- Truthiness of a possibly-undefined value. -/
def optTruthy : Option JValue → Bool
  | none => false
  | some v => jTruthy v

/-- The for..of iteration protocol on a truthy value: arrays yield their
elements, strings yield their characters as one-character strings, every
other truthy value is not iterable (a TypeError, modelled as none). -/
def jIter : JValue → Option (List JValue)
  | .arr xs => some xs
  | .str s => some (s.toList.map fun c => .str c.toString)
  | _ => none

/-- ASCII lowercasing of one character, the fragment of the JavaScript
toLowerCase builtin exercised by the routes (flag values, HTML preambles
and URLs are ASCII). -/
def lowerChar (c : Char) : Char :=
  if 65 ≤ c.toNat ∧ c.toNat ≤ 90 then Char.ofNat (c.toNat + 32) else c

/-- The toLowerCase builtin, character by character. -/
def lowerStr (s : String) : String :=
  String.mk (s.toList.map lowerChar)

/-- The trim builtin: leading and trailing whitespace removed. -/
def trimStr (s : String) : String :=
  String.mk (((s.toList.dropWhile Char.isWhitespace).reverse.dropWhile
    Char.isWhitespace).reverse)

/-- Character-list prefix test. -/
def isPrefixB : List Char → List Char → Bool
  | [], _ => true
  | _ :: _, [] => false
  | a :: as, b :: bs => a == b && isPrefixB as bs

/-- The startsWith builtin. -/
def startsWithStr (s pre : String) : Bool :=
  isPrefixB pre.toList s.toList

/-- Character-list infix test used to define substring containment. -/
def isInfixB (needle : List Char) : List Char → Bool
  | [] => needle.isEmpty
  | b :: bs => isPrefixB needle (b :: bs) || isInfixB needle bs

/-- Substring containment on strings, decidably. -/
def containsStr (hay needle : String) : Bool :=
  isInfixB needle.toList hay.toList

mutual

/-- String coercion applied by a JavaScript template literal; arrays join
their coerced elements with commas and null elements become the empty
string, objects coerce to the usual object placeholder. -/
def jsToString : JValue → String
  | .null => "null"
  | .bool b => if b then "true" else "false"
  | .num n => toString n
  | .str s => s
  | .arr xs => jsElemsToString xs
  | .obj _ => "[object Object]"

def jsElemsToString : List JValue → String
  | [] => ""
  | [JValue.null] => ""
  | [v] => jsToString v
  | JValue.null :: vs => "," ++ jsElemsToString vs
  | v :: vs => jsToString v ++ "," ++ jsElemsToString vs

end

/-- Escape one character for a JSON string literal.  Control characters
other than newline, tab and carriage return are left unescaped; none of the
strings under verification contains them. -/
def jsonEscapeChar (c : Char) : String :=
  if c = '"' then "\\\""
  else if c = '\\' then "\\\\"
  else if c = '\n' then "\\n"
  else if c = '\t' then "\\t"
  else if c = '\r' then "\\r"
  else c.toString

/-- Escape a string for inclusion in JSON output. -/
def jsonEscape (s : String) : String :=
  String.join (s.toList.map jsonEscapeChar)

/-- Quote a string as a JSON string literal. -/
def jsonQuote (s : String) : String :=
  "\"" ++ jsonEscape s ++ "\""

mutual

/-- The JSON.stringify builtin without indentation, on parsed JSON
values (no undefined and no functions can occur in them). -/
def jsonStringify : JValue → String
  | .null => "null"
  | .bool b => if b then "true" else "false"
  | .num n => toString n
  | .str s => jsonQuote s
  | .arr xs => "[" ++ jsonStringifyElems xs ++ "]"
  | .obj fs => "\x7b" ++ jsonStringifyFields fs ++ "\x7d"

def jsonStringifyElems : List JValue → String
  | [] => ""
  | [v] => jsonStringify v
  | v :: vs => jsonStringify v ++ "," ++ jsonStringifyElems vs

def jsonStringifyFields : List (String × JValue) → String
  | [] => ""
  | [(k, v)] => jsonQuote k ++ ":" ++ jsonStringify v
  | (k, v) :: fs => jsonQuote k ++ ":" ++ jsonStringify v ++ "," ++ jsonStringifyFields fs

end

/-! ## Delegate (Langflow) route: src/frontend/src/app/api/chat/route.ts -/

/-- Configuration read from the environment by the delegate route; only the
fields that flow into the response are kept. -/
structure DelegateConfig where
  indexName : String
  embeddingModel : String

/-- The upstream Langflow HTTP response as observed by the route: its
status, its raw body text, and the result of JSON.parse on that text
(none when JSON.parse throws). -/
structure UpstreamResponse where
  status : Nat
  text : String
  parsed : Option JValue

/-- response.ok of the fetch API: status in the 2xx range. -/
def httpOk (status : Nat) : Bool :=
  200 ≤ status && status < 300

/-- The HTML-preamble check the route performs on the trimmed, lowercased
raw body before any JSON parsing. -/
def isHtmlBody (text : String) : Bool :=
  let trimmed := lowerStr (trimStr text)
  startsWithStr trimmed "<!doctype" || startsWithStr trimmed "<html"

/-- The authentication hint appended when Langflow answers with HTML:
one message when no API key is configured, another when one is. -/
def langflowAuthHint (apiKey : String) : String :=
  if apiKey = "" then
    " Langflow 1.5+ requires an API key: add LANGFLOW_API_KEY to frontend/.env.local (create one in Langflow: Settings → API Keys). Or run Langflow with LANGFLOW_SKIP_AUTH_AUTO_LOGIN=true for local dev without auth."
  else
    " Check that LANGFLOW_API_KEY is valid and LANGFLOW_FLOW_ID matches your flow in the Langflow UI."

/-- The full error message returned with status 502 when the upstream body
is an HTML page. -/
def htmlErrorMsg (apiKey : String) : String :=
  "Langflow returned a page instead of JSON." ++ langflowAuthHint apiKey ++
    " Also ensure LANGFLOW_URL is the base URL (e.g. http://localhost:7860) and the flow is built and running."

/-- The value interpolated into the upstream-rejection message: the first
truthy of the detail, message and error fields of the parsed error body,
with a literal fallback.  The caller has already excluded a null body. -/
def langflowErrorValue (ed : JValue) : JValue :=
  let m1 := jField ed "detail"
  if optTruthy m1 then m1.getD .null
  else
    let m2 := jField ed "message"
    if optTruthy m2 then m2.getD .null
    else
      let m3 := jField ed "error"
      if optTruthy m3 then m3.getD .null
      else .str "Unknown error"

/-- One step of the inner extraction loop, for one element of an
output.outputs array: the three recognized text locations are tried in
order and a match overwrites the running answer.  A null element makes the
plain property access innerOutput.results throw. -/
def stepInner (answer : JValue) (innerOutput : JValue) : Except Unit JValue :=
  match innerOutput with
  | .null => .error ()
  | v =>
    let results := jField v "results"
    let t1 := jOptGet (jOptGet results "message") "text"
    if optTruthy t1 then .ok (t1.getD .null)
    else
      let t2 := jOptGet results "text"
      if optTruthy t2 then .ok (t2.getD .null)
      else
        let t3 := jOptGet (jField v "message") "text"
        if optTruthy t3 then .ok (t3.getD .null)
        else .ok answer

/-- One step of the outer extraction loop, for one element of the top-level
outputs array: when the element carries a truthy outputs property the inner
loop runs over it; a null element or a truthy non-iterable property is a
TypeError. -/
def stepOuter (answer : JValue) (output : JValue) : Except Unit JValue :=
  match output with
  | .null => .error ()
  | v =>
    let inner := jField v "outputs"
    if optTruthy inner then
      match jIter (inner.getD .null) with
      | none => .error ()
      | some elems => elems.foldlM stepInner answer
    else .ok answer

/-- The scan of a truthy top-level outputs value: the outer loop over its
elements, starting from the empty-string answer. -/
def scanOutputs (outputs : JValue) : Except Unit JValue :=
  match jIter outputs with
  | none => .error ()
  | some elems => elems.foldlM stepOuter (.str "")

/-- Answer extraction from the parsed Langflow response body, mirroring the
if / else-if chain of the route: a truthy outputs field commits to the
nested scan, otherwise a truthy result field is used (plain string, else
its text field, else the JSON.stringify of the whole value), otherwise a
truthy text field, otherwise the answer stays empty.  Errors are the
TypeErrors the corresponding JavaScript would throw. -/
def extractAnswer (langflowData : JValue) : Except Unit JValue :=
  match langflowData with
  | .null => .error ()
  | d =>
    let outputs := jField d "outputs"
    if optTruthy outputs then
      scanOutputs (outputs.getD .null)
    else
      let result := jField d "result"
      if optTruthy result then
        match result.getD .null with
        | .str s => .ok (.str s)
        | r =>
          let rt := jField r "text"
          if optTruthy rt then .ok (rt.getD .null)
          else .ok (.str (jsonStringify r))
      else
        let t := jField d "text"
        if optTruthy t then .ok (t.getD .null)
        else .ok (.str "")

/-- The final falsy-answer substitution performed after extraction. -/
def finalizeAnswer (a : JValue) : JValue :=
  if jTruthy a then a else .str "No response received from the RAG system."

/-- Extraction followed by the falsy-answer substitution. -/
def normalizeAnswer (langflowData : JValue) : Except Unit JValue :=
  (extractAnswer langflowData).map finalizeAnswer

/-- The JSON.stringify(hybridQueryExample, null, 2) string embedded in the
hybrid search_info, with the embedding model and the user message
interpolated. -/
def hybridQueryStr (embeddingModel message : String) : String :=
  "\x7b\n  \"description\": \"Langflow Hybrid Search Pipeline\",\n  \"components\": \x7b\n    \"1_embedding\": \x7b\n      \"model\": " ++
    jsonQuote embeddingModel ++ ",\n      \"input\": " ++ jsonQuote message ++
    "\n    \x7d,\n    \"2_vector_search\": \x7b\n      \"type\": \"knn\",\n      \"field\": \"vector_field\",\n      \"k\": 10\n    \x7d,\n    \"3_bm25_search\": \x7b\n      \"type\": \"keyword\",\n      \"fields\": [\n        \"text\",\n        \"keywords\"\n      ],\n      \"query\": \"extracted from question\"\n    \x7d,\n    \"4_hybrid_fusion\": \x7b\n      \"method\": \"reciprocal_rank_fusion\",\n      \"weights\": \x7b\n        \"vector\": 0.5,\n        \"bm25\": 0.5\n      \x7d\n    \x7d\n  \x7d\n\x7d"

/-- The diagnostic search_info object of the hybrid (delegate) response. -/
structure HybridSearchInfo where
  stype : String
  orchestrator : String
  index : String
  note : String
  query : String

/-- search_info as built by the delegate route. -/
def hybridSearchInfoOf (cfg : DelegateConfig) (message : String) : HybridSearchInfo :=
  { stype := "Hybrid Search (BM25 + Vector)"
    orchestrator := "Langflow"
    index := cfg.indexName
    note := "Retrieved documents handled by Langflow internally"
    query := hybridQueryStr cfg.embeddingModel message }

/-- The JSON body of a delegate-route response: either an error object with
a single error field, or the success object with answer, session_id,
search_type and search_info fields. -/
inductive DelegateBody where
  | error (msg : String) : DelegateBody
  | success (answer : JValue) (sessionId : String) (searchType : String)
      (searchInfo : HybridSearchInfo) : DelegateBody

/-- A delegate-route HTTP response: status code and JSON body. -/
structure DelegateResult where
  status : Nat
  body : DelegateBody

/-- Truthiness of the optional message / session_id strings taken from the
request body. -/
def strTruthy : Option String → Bool
  | none => false
  | some s => !(s == "")

/-- The delegate route handler, as a function of the request fields, the
configured API key, the upstream Langflow response and the uuid that
uuidv4() would generate for a missing session id.  The engine-specific
message of a TypeError thrown during extraction and caught by the outer
handler is abstracted as the literal Internal server error string. -/
def runDelegate (cfg : DelegateConfig) (message sessionId : Option String)
    (apiKey : String) (resp : UpstreamResponse) (uuid : String) : DelegateResult :=
  if strTruthy message = false then ⟨400, .error "Message is required"⟩
  else if isHtmlBody resp.text then ⟨502, .error (htmlErrorMsg apiKey)⟩
  else if httpOk resp.status = false then
    match resp.parsed with
    | some ed =>
      match ed with
      | .null => ⟨resp.status, .error ("Langflow API error: " ++ toString resp.status)⟩
      | ed => ⟨resp.status, .error ("Langflow error: " ++ jsToString (langflowErrorValue ed))⟩
    | none => ⟨resp.status, .error ("Langflow API error: " ++ toString resp.status)⟩
  else
    match resp.parsed with
    | none => ⟨502, .error "Invalid JSON response from Langflow"⟩
    | some d =>
      match normalizeAnswer d with
      | .error _ => ⟨500, .error "Internal server error"⟩
      | .ok a =>
        let sid := match sessionId with
          | some s => if s = "" then uuid else s
          | none => uuid
        ⟨200, .success a sid "hybrid" (hybridSearchInfoOf cfg (message.getD ""))⟩

/-! ## Direct semantic route: the unnamed Next.js route (src/unnamed/part_000)

The handler is embedded as a pure function of the request message, the
configured OPENAI_API_KEY and normalized OPENSEARCH_URL, and the outcomes
of its three external calls (embedding, search fetch, generation).  The
trace additionally records the user-turn prompt passed to the generation
call, so that which requests invoke the generation provider, and with what
context, is part of the embedded behaviour.  The constant system
instruction string sent alongside the user turn is a fixed literal the
claims never reference and is not recorded in the trace.
-/

/-- One OpenSearch hit as consumed by the route: the two requested source
fields and the engine score.  The score is carried opaquely. -/
structure Hit where
  text : String
  filePath : Option String
  score : Float

/-- One entry of the retrieved_docs array of the response. -/
structure RetrievedDoc where
  rank : Nat
  score : Float
  text : String
  filePath : String

/-- The diagnostic search_info object of the direct response. -/
structure SearchInfo where
  stype : String
  index : String
  embeddingModel : String
  k : Nat
  query : String

/-- Environment-derived configuration of the direct route. -/
structure DirectConfig where
  indexName : String
  embeddingModel : String
  vectorField : String
  k : Nat

/-- Outcome of the embedding call: either the SDK call rejected (or the
response lacked the vector, making the data[0].embedding access throw),
which the outer catch turns into a 500, or it produced a query vector. -/
inductive EmbedOutcome where
  | throwErr (msg : String) : EmbedOutcome
  | ok (vec : List Float) : EmbedOutcome

/-- Outcome of the search step: the fetch itself rejected; or the response
arrived with a non-2xx status and some error body text; or reading or
parsing the response body threw (caught by the outer handler); or it
succeeded and hits.hits (defaulted to the empty list) was extracted. -/
inductive SearchOutcome where
  | fetchError : SearchOutcome
  | httpError (status : Nat) (errorText : String) : SearchOutcome
  | jsonError (msg : String) : SearchOutcome
  | success (hits : List Hit) : SearchOutcome

/-- Outcome of the generation call: the SDK call rejected (caught by the
outer handler), or it resolved and choices[0]?.message?.content was the
given optional string. -/
inductive GenOutcome where
  | throwErr (msg : String) : GenOutcome
  | ok (content : Option String) : GenOutcome

/-- Context assembly: each hit text is labelled with its 1-based position
and the segments are joined with the fixed separator, exactly as the
hits.map / join expression of the route. -/
def buildContext (texts : List String) : String :=
  String.intercalate "\n\n---\n\n"
    (texts.enum.map fun p => "Document " ++ toString (p.1 + 1) ++ ":\n" ++ p.2)

/-- The user-turn content passed to the generation call. -/
def userPrompt (context message : String) : String :=
  "CONTEXT:\n" ++ context ++ "\n\nQUESTION: " ++ message ++
    "\n\nANSWER (use specific numbers from the context):"

/-- Display truncation of a hit text for the retrieved_docs array. -/
def truncateText (t : String) : String :=
  if t.length > 500 then t.take 500 ++ "..." else t

/-- Number.prototype.toFixed(4) for the ordinary finite magnitudes that
occur in embedding vectors. -/
def toFixed4 (v : Float) : String :=
  let neg := v < 0.0
  let a := if neg then -v else v
  let n := (a * 10000.0 + 0.5).toUInt64.toNat
  let ip := n / 10000
  let fp := n % 10000
  let fpStr := toString fp
  let pad := String.mk (List.replicate (4 - fpStr.length) '0')
  (if neg then "-" else "") ++ toString ip ++ "." ++ pad ++ fpStr

/-- The truncated vector rendering placed into the display query. -/
def vecDisplay (vec : List Float) : String :=
  "[" ++ String.intercalate ", " ((vec.take 5).map toFixed4) ++ "... (" ++
    toString vec.length ++ " dimensions)]"

/-- JSON.stringify(displayQuery, null, 2): the two-space pretty printing of
the display query object, with the vector field name as computed key. -/
def displayQueryStr (cfg : DirectConfig) (vec : List Float) : String :=
  "\x7b\n  \"size\": " ++ toString cfg.k ++
    ",\n  \"_source\": [\n    \"text\",\n    \"file_path\"\n  ],\n  \"query\": \x7b\n    \"knn\": \x7b\n      " ++
    jsonQuote cfg.vectorField ++ ": \x7b\n        \"vector\": " ++
    jsonQuote (vecDisplay vec) ++ ",\n        \"k\": " ++ toString cfg.k ++
    "\n      \x7d\n    \x7d\n  \x7d\n\x7d"

/-- search_info as built by the direct route. -/
def searchInfoOf (cfg : DirectConfig) (vec : List Float) : SearchInfo :=
  { stype := "k-NN Vector Search"
    index := cfg.indexName
    embeddingModel := cfg.embeddingModel
    k := cfg.k
    query := displayQueryStr cfg vec }

/-- The retrieved_docs array: rank is the 1-based input position, the text
is display-truncated, and a missing or falsy file_path becomes unknown. -/
def retrievedDocsOf (hits : List Hit) : List RetrievedDoc :=
  hits.enum.map fun p =>
    { rank := p.1 + 1
      score := p.2.score
      text := truncateText p.2.text
      filePath :=
        match p.2.filePath with
        | some s => if s = "" then "unknown" else s
        | none => "unknown" }

/-- The JSON body of a direct-route response.  The three constructors are
the three object literals the route can return: the error object, the
zero-hit short-circuit object, and the full answer object.  Which JSON keys
each carries is given by DirectBody.keys. -/
inductive DirectBody where
  | error (msg : String) : DirectBody
  | noDocs (answer : String) (searchType : String) (docsRetrieved : Nat) : DirectBody
  | full (answer : String) (searchType : String) (docsRetrieved : Nat)
      (retrievedDocs : List RetrievedDoc) (searchInfo : SearchInfo) : DirectBody

/-- The JSON keys present in each possible direct-route response body,
read off the three object literals of the source. -/
def DirectBody.keys : DirectBody → List String
  | .error _ => ["error"]
  | .noDocs _ _ _ => ["answer", "search_type", "docs_retrieved"]
  | .full _ _ _ _ _ =>
      ["answer", "search_type", "docs_retrieved", "retrieved_docs", "search_info"]

/-- The answer field of a body, when present. -/
def DirectBody.answerOf : DirectBody → Option String
  | .error _ => none
  | .noDocs a _ _ => some a
  | .full a _ _ _ _ => some a

/-- The search_type field of a body, when present. -/
def DirectBody.searchTypeOf : DirectBody → Option String
  | .error _ => none
  | .noDocs _ t _ => some t
  | .full _ t _ _ _ => some t

/-- The docs_retrieved field of a body, when present. -/
def DirectBody.docsRetrievedOf : DirectBody → Option Nat
  | .error _ => none
  | .noDocs _ _ n => some n
  | .full _ _ n _ _ => some n

/-- A direct-route HTTP response together with the generation-call record:
genPrompt is the user-turn content the generation provider was called with,
or none when the pipeline never called it. -/
structure DirectTrace where
  status : Nat
  body : DirectBody
  genPrompt : Option String

/-- The direct route handler, as a function of the request message, the
two required configuration strings and the outcomes of the three external
calls, translated check by check from the route source. -/
def runDirect (cfg : DirectConfig) (message : Option String) (apiKey url : String)
    (embed : EmbedOutcome) (search : SearchOutcome) (gen : GenOutcome) : DirectTrace :=
  if strTruthy message = false then
    ⟨400, .error "Message is required", none⟩
  else if apiKey = "" then
    ⟨500, .error "OPENAI_API_KEY not configured", none⟩
  else if url = "" then
    ⟨500, .error "OPENSEARCH_URL not configured. Set it in frontend/.env.local.", none⟩
  else
    match embed with
    | .throwErr m => ⟨500, .error m, none⟩
    | .ok vec =>
      match search with
      | .fetchError =>
        ⟨502, .error ("Failed to reach OpenSearch at " ++ url ++ " (index: " ++
          cfg.indexName ++
          "). Check OPENSEARCH_URL and whether the cluster is reachable from this machine."), none⟩
      | .httpError _ _ => ⟨502, .error "Failed to search OpenSearch", none⟩
      | .jsonError m => ⟨500, .error m, none⟩
      | .success hits =>
        if hits.isEmpty then
          ⟨200, .noDocs "No relevant documents found for your question." "semantic" 0, none⟩
        else
          let context := buildContext (hits.map Hit.text)
          let prompt := userPrompt context (message.getD "")
          match gen with
          | .throwErr m => ⟨500, .error m, some prompt⟩
          | .ok content =>
            let answer :=
              match content with
              | some s => if s = "" then "No response generated." else s
              | none => "No response generated."
            ⟨200, .full answer "semantic" hits.length (retrievedDocsOf hits)
              (searchInfoOf cfg vec), some prompt⟩

/-! ## TLS-verification resolution

Two distinct resolvers exist in the repository: the app client in
src/frontend/src/lib/opensearch.ts and the index-creation script in
src/frontend/scripts/create-opensearch-index.js.  Both are embedded as
functions of the four environment variables they may read. -/

/-- The four environment variables consulted by the two resolvers; none is
required to be set. -/
structure TlsEnv where
  sslVerify : Option String
  sslReject : Option String
  nodeEnv : Option String
  opensearchUrl : Option String

/-- The false-like test both resolvers apply to a lowercased flag value. -/
def falseLike (raw : String) : Bool :=
  raw == "false" || raw == "0" || raw == "no"

/-- The app client resolver (lib/opensearch.ts): it consults only
OPENSEARCH_SSL_REJECT_UNAUTHORIZED, with a nullish default of true, and
returns whether certificates are verified. -/
def getRejectUnauthorizedLib (e : TlsEnv) : Bool :=
  let raw := lowerStr (e.sslReject.getD "true")
  !(raw == "false") && !(raw == "0") && !(raw == "no")

/-- The index-creation script resolver: OPENSEARCH_SSL_VERIFY wins, then
OPENSEARCH_SSL_REJECT_UNAUTHORIZED, then a non-production environment with
an https endpoint defaults to skipping, otherwise verification holds. -/
def getRejectUnauthorizedScript (e : TlsEnv) : Bool :=
  let sslVerify := lowerStr (e.sslVerify.getD "")
  if falseLike sslVerify then false
  else
    let raw := lowerStr (e.sslReject.getD "")
    if falseLike raw then false
    else if e.nodeEnv ≠ some "production" then
      let url := lowerStr (trimStr (e.opensearchUrl.getD ""))
      if startsWithStr url "https://" then false else true
    else true

/-! ## Spec-side definitions

Renderings written from the words of the specification, used to state the
refinement claims; each is compared against the corresponding definition
translated from the source. -/

/-- Context rendering as the specification words it: the documents in rank
order 1..K, each rendered as a labelled segment, joined by the fixed
separator. -/
def specContextRender (texts : List String) : String :=
  String.intercalate "\n\n---\n\n"
    ((List.range texts.length).map fun i =>
      "Document " ++ toString (i + 1) ++ ":\n" ++ texts.getD i "")


/-! ## Derived views of the extraction loops, used to state the claims -/

/-- The text one element of an inner outputs array contributes: the first
truthy of results.message.text, results.text and message.text, or none.
This is the condition chain of the inner loop body, packaged as a partial
extraction function. -/
def innerExtract (v : JValue) : Option JValue :=
  let results := jField v "results"
  let t1 := jOptGet (jOptGet results "message") "text"
  if optTruthy t1 then t1
  else
    let t2 := jOptGet results "text"
    if optTruthy t2 then t2
    else
      let t3 := jOptGet (jField v "message") "text"
      if optTruthy t3 then t3 else none

/-- The inner outputs carried by one element of the top-level outputs
array, when that element carries an array there. -/
def innersOf (o : JValue) : List JValue :=
  match jField o "outputs" with
  | some (.arr xs) => xs
  | _ => []

/-- Well-formedness of one element of the top-level outputs array: it is
not null, and its outputs property is either falsy or an array of non-null
elements, so that the scan neither throws nor iterates a string. -/
def goodOuter (o : JValue) : Prop :=
  o ≠ .null
  ∧ (optTruthy (jField o "outputs") = false
      ∨ ∃ xs, jField o "outputs" = some (.arr xs) ∧ ∀ v ∈ xs, v ≠ JValue.null)

/-- All inner outputs of a top-level outputs array, in scan order. -/
def allInners : List JValue → List JValue
  | [] => []
  | o :: t => innersOf o ++ allInners t

/-- The last element of a list, or a default: the value a sequence of
overwriting assignments leaves in the answer variable. -/
def lastD : List JValue → JValue → JValue
  | [], d => d
  | x :: xs, _ => lastD xs x

/-- The extraction applied to a truthy top-level result value: a plain
string is used as is, otherwise its truthy text field, otherwise the
JSON.stringify of the whole value. -/
def resultShape (r : JValue) : JValue :=
  match r with
  | .str s => .str s
  | r =>
    if optTruthy (jField r "text") then (jField r "text").getD .null
    else .str (jsonStringify r)

/-! ## Concrete fixtures used to instantiate the theorems -/

/-- The nested delegate response whose inner results.text is the string
42, from the spec test catalogue. -/
def ex42 : JValue :=
  .obj [("outputs", .arr [.obj [("outputs",
    .arr [.obj [("results", .obj [("text", .str "42")])]])]])]

/-- A delegate response with an empty outputs array and a truthy top-level
text field: shape one is selected and yields nothing, so the route answers
with the fallback literal although shape three would have yielded text. -/
def cexC3 : JValue :=
  .obj [("outputs", .arr []), ("text", .str "hello")]

/-- Inner output carrying results.text. -/
def exC10in1 : JValue := .obj [("results", .obj [("text", .str "first")])]

/-- Inner output carrying results.message.text. -/
def exC10in2 : JValue :=
  .obj [("results", .obj [("message", .obj [("text", .str "second")])])]

/-- A top-level output with two matching inner outputs. -/
def exC10out : JValue := .obj [("outputs", .arr [exC10in1, exC10in2])]

/-- A delegate response in which two inner outputs match, so the later
match must win. -/
def exC10 : JValue := .obj [("outputs", .arr [exC10out])]

/-- An upstream HTML login-page response. -/
def respHtml : UpstreamResponse :=
  { status := 200
    text := "<!DOCTYPE html><html><head><title>Langflow</title></head><body>Login</body></html>"
    parsed := none }

/-- An upstream 401 rejection with a detail field, from the spec test
catalogue. -/
def resp401 : UpstreamResponse :=
  { status := 401
    text := "\x7b\"detail\":\"invalid key\"\x7d"
    parsed := some (.obj [("detail", .str "invalid key")]) }

/-- An upstream 401 rejection whose detail field is present but empty and
whose message field carries text. -/
def resp401bad : UpstreamResponse :=
  { status := 401
    text := "\x7b\"detail\":\"\",\"message\":\"x\"\x7d"
    parsed := some (.obj [("detail", .str ""), ("message", .str "x")]) }

/-- A fixed uuid standing for the uuidv4() result. -/
def uuid0 : String := "123e4567-e89b-12d3-a456-426614174000"

/-- An environment with the skip-verification flag set, in production,
with an https endpoint: the claim predicts skipped verification for the
search-cluster client. -/
def cexTls : TlsEnv :=
  { sslVerify := some "false", sslReject := none, nodeEnv := some "production",
    opensearchUrl := some "https://cluster.example.com" }

/-- A non-production environment with an https endpoint and no override
flags. -/
def tlsNonProd : TlsEnv :=
  { sslVerify := none, sslReject := none, nodeEnv := none,
    opensearchUrl := some "https://cluster.internal:9200" }

/-- A direct-route configuration with the default environment values. -/
def cfg0 : DirectConfig :=
  { indexName := "rag_demo", embeddingModel := "text-embedding-3-small",
    vectorField := "embeddings", k := 2 }

/-- A delegate-route configuration with the default environment values. -/
def dcfg0 : DelegateConfig :=
  { indexName := "rag_demo", embeddingModel := "text-embedding-3-small" }

/-- A sample retrieved hit with a provenance path. -/
def hit0 : Hit :=
  { text := "BeeHive Bank savings rates", filePath := some "docs/rates.md", score := 1.5 }

/-- A sample retrieved hit without a provenance path. -/
def hit1 : Hit :=
  { text := "Credit card APR details", filePath := none, score := 0.75 }

/-! ## Theorems -/

/-- Auxiliary: mapping the labelling function over an index-enumerated list
equals mapping over the index range, for any starting index. -/
theorem enumFrom_label_eq (l : List String) : ∀ n : Nat,
    (List.enumFrom n l).map (fun p => "Document " ++ toString (p.1 + 1) ++ ":\n" ++ p.2)
      = (List.range l.length).map
          (fun i => "Document " ++ toString (n + i + 1) ++ ":\n" ++ l.getD i "") := by
  induction l with
  | nil => intro n; simp
  | cons a t ih =>
    intro n
    simp only [List.enumFrom, List.map_cons, List.length_cons, List.range_succ_eq_map,
      List.map_map]
    refine congrArg₂ (· :: ·) (by simp) ?_
    rw [ih (n + 1)]
    congr 1
    funext i
    have hn : n + (i + 1) + 1 = n + 1 + i + 1 := by omega
    simp [Function.comp, List.getD_cons_succ, hn]

/-- The source context assembly agrees with the spec-side rendering on
every input list. -/
theorem buildContext_eq_spec (texts : List String) :
    buildContext texts = specContextRender texts := by
  unfold buildContext specContextRender
  congr 1
  have h := enumFrom_label_eq texts 0
  simp only [Nat.zero_add] at h
  simpa [List.enum] using h

/-- C1: for every sequence of at least one retrieved document, the context
string passed to the generation model is the documents rendered in input
order with 1-based Document labels joined by the fixed separator, the
rendering is deterministic, and the generation call receives exactly this
context inside its user prompt. -/
theorem claim_C1 (hits : List Hit) (hne : hits ≠ []) :
    buildContext (hits.map Hit.text) = specContextRender (hits.map Hit.text)
    ∧ (∀ hits2 : List Hit, hits2 = hits →
        buildContext (hits2.map Hit.text) = buildContext (hits.map Hit.text))
    ∧ (∀ (cfg : DirectConfig) (msg apiKey url : String) (vec : List Float)
        (gen : GenOutcome), msg ≠ "" → apiKey ≠ "" → url ≠ "" →
        (runDirect cfg (some msg) apiKey url (.ok vec) (.success hits) gen).genPrompt
          = some (userPrompt (buildContext (hits.map Hit.text)) msg)) := by
  refine ⟨buildContext_eq_spec _, fun hits2 he => by rw [he], ?_⟩
  intro cfg msg apiKey url vec gen hm hk hu
  cases hits with
  | nil => exact absurd rfl hne
  | cons a t =>
    cases gen <;> simp [runDirect, strTruthy, hm, hk, hu]

/-- Witness for C1 at a one-document list. -/
theorem claim_C1_witness :
    (([hit0] : List Hit) ≠ [])
    ∧ buildContext ([hit0].map Hit.text) = "Document 1:\nBeeHive Bank savings rates" :=
  ⟨List.cons_ne_nil _ _,
    ((claim_C1 [hit0] (List.cons_ne_nil _ _)).1).trans (by decide)⟩

/-- C2: a direct-mode request whose vector search returns zero hits gets a
200 response whose body is the zero-hit object with docs_retrieved 0 and an
answer containing the no-relevant-documents phrase, and the generation
provider is never called (no generation prompt exists in the trace, for
every possible generation outcome). -/
theorem claim_C2 (cfg : DirectConfig) (msg apiKey url : String) (vec : List Float)
    (gen : GenOutcome) (hm : msg ≠ "") (hk : apiKey ≠ "") (hu : url ≠ "") :
    (runDirect cfg (some msg) apiKey url (.ok vec) (.success []) gen).status = 200
    ∧ (runDirect cfg (some msg) apiKey url (.ok vec) (.success []) gen).body
        = .noDocs "No relevant documents found for your question." "semantic" 0
    ∧ containsStr "No relevant documents found for your question."
        "No relevant documents found" = true
    ∧ (runDirect cfg (some msg) apiKey url (.ok vec) (.success []) gen).genPrompt = none := by
  refine ⟨?_, ?_, by decide, ?_⟩ <;> simp [runDirect, strTruthy, hm, hk, hu]

/-- Witness for C2 at a concrete nonsense query. -/
theorem claim_C2_witness :
    (("asdkjalksjd nonsense query" : String) ≠ "" ∧ ("sk-key" : String) ≠ ""
      ∧ ("http://opensearch:9200" : String) ≠ "")
    ∧ (runDirect cfg0 (some "asdkjalksjd nonsense query") "sk-key" "http://opensearch:9200"
        (.ok []) (.success []) (.ok none)).status = 200
    ∧ (runDirect cfg0 (some "asdkjalksjd nonsense query") "sk-key" "http://opensearch:9200"
        (.ok []) (.success []) (.ok none)).body
        = .noDocs "No relevant documents found for your question." "semantic" 0
    ∧ (runDirect cfg0 (some "asdkjalksjd nonsense query") "sk-key" "http://opensearch:9200"
        (.ok []) (.success []) (.ok none)).genPrompt = none := by
  have h := claim_C2 cfg0 "asdkjalksjd nonsense query" "sk-key" "http://opensearch:9200"
    [] (.ok none) (by decide) (by decide) (by decide)
  exact ⟨⟨by decide, by decide, by decide⟩, h.1, h.2.1, h.2.2.2⟩

/-- Auxiliary: the retrieved_docs array has one entry per hit. -/
theorem retrievedDocsOf_length (hits : List Hit) :
    (retrievedDocsOf hits).length = hits.length := by
  simp [retrievedDocsOf]

/-- C5 counterexample: when the index replies with raw status 503, the
route answers 502 with the fixed message, and that message does not
contain the raw status. -/
theorem claim_C5_cex :
    (runDirect cfg0 (some "q") "sk-key" "http://opensearch:9200" (.ok [])
      (.httpError 503 "Service Unavailable") (.ok none)).status = 502
    ∧ (runDirect cfg0 (some "q") "sk-key" "http://opensearch:9200" (.ok [])
        (.httpError 503 "Service Unavailable") (.ok none)).body
        = .error "Failed to search OpenSearch"
    ∧ containsStr "Failed to search OpenSearch" "503" = false :=
  ⟨rfl, rfl, by decide⟩

/-- C5 as amended: a non-success index status yields a 502 response whose
error message is the fixed search-failure literal, independent of the raw
status and error body, which are only logged. -/
theorem claim_C5_amended (cfg : DirectConfig) (msg apiKey url : String) (vec : List Float)
    (status : Nat) (errText : String) (gen : GenOutcome)
    (hm : msg ≠ "") (hk : apiKey ≠ "") (hu : url ≠ "") :
    runDirect cfg (some msg) apiKey url (.ok vec) (.httpError status errText) gen
      = ⟨502, .error "Failed to search OpenSearch", none⟩ := by
  simp [runDirect, strTruthy, hm, hk, hu]

/-- Witness for the amended C5 at a concrete 404 from the index. -/
theorem claim_C5_amended_witness :
    (("q" : String) ≠ "" ∧ ("sk-key" : String) ≠ ""
      ∧ ("http://opensearch:9200" : String) ≠ "")
    ∧ runDirect cfg0 (some "q") "sk-key" "http://opensearch:9200" (.ok [])
        (.httpError 404 "index_not_found_exception") (.ok none)
        = ⟨502, .error "Failed to search OpenSearch", none⟩ :=
  ⟨⟨by decide, by decide, by decide⟩,
    claim_C5_amended cfg0 "q" "sk-key" "http://opensearch:9200" [] 404
      "index_not_found_exception" (.ok none) (by decide) (by decide) (by decide)⟩

/-- C6 counterexample: with retrieval succeeded on one document, a thrown
generation-provider error is caught by the outer handler and produces a 500
error response with no answer field, not the fallback Answer. -/
theorem claim_C6_cex :
    (runDirect cfg0 (some "q") "sk-key" "http://opensearch:9200" (.ok [])
      (.success [hit0]) (.throwErr "OpenAI API error")).status = 500
    ∧ (runDirect cfg0 (some "q") "sk-key" "http://opensearch:9200" (.ok [])
        (.success [hit0]) (.throwErr "OpenAI API error")).body
        = .error "OpenAI API error"
    ∧ DirectBody.answerOf (runDirect cfg0 (some "q") "sk-key" "http://opensearch:9200"
        (.ok []) (.success [hit0]) (.throwErr "OpenAI API error")).body = none :=
  ⟨rfl, rfl, rfl⟩

/-- C6 as amended: when retrieval succeeded with at least one document and
the generation call resolved with missing or empty content, the route
returns a well-formed 200 Answer whose answer is the fallback literal;
a generation call that throws is instead converted by the outer handler
into a 500 error response. -/
theorem claim_C6_amended (cfg : DirectConfig) (msg apiKey url : String) (vec : List Float)
    (hits : List Hit) (content : Option String)
    (hm : msg ≠ "") (hk : apiKey ≠ "") (hu : url ≠ "") (hh : hits ≠ [])
    (hc : content = none ∨ content = some "") :
    (runDirect cfg (some msg) apiKey url (.ok vec) (.success hits) (.ok content)).status = 200
    ∧ DirectBody.answerOf
        (runDirect cfg (some msg) apiKey url (.ok vec) (.success hits) (.ok content)).body
        = some "No response generated."
    ∧ DirectBody.keys
        (runDirect cfg (some msg) apiKey url (.ok vec) (.success hits) (.ok content)).body
        = ["answer", "search_type", "docs_retrieved", "retrieved_docs", "search_info"] := by
  cases hits with
  | nil => exact absurd rfl hh
  | cons a t =>
    rcases hc with hc | hc <;> subst hc <;>
      simp [runDirect, strTruthy, hm, hk, hu, DirectBody.answerOf, DirectBody.keys]

/-- Witness for the amended C6 at a concrete empty generation output. -/
theorem claim_C6_amended_witness :
    (("q" : String) ≠ "" ∧ ("sk-key" : String) ≠ ""
      ∧ ("http://opensearch:9200" : String) ≠ "" ∧ ([hit0] : List Hit) ≠ []
      ∧ ((none : Option String) = none ∨ (none : Option String) = some ""))
    ∧ (runDirect cfg0 (some "q") "sk-key" "http://opensearch:9200" (.ok [])
        (.success [hit0]) (.ok none)).status = 200
    ∧ DirectBody.answerOf (runDirect cfg0 (some "q") "sk-key" "http://opensearch:9200"
        (.ok []) (.success [hit0]) (.ok none)).body = some "No response generated." := by
  have h := claim_C6_amended cfg0 "q" "sk-key" "http://opensearch:9200" [] [hit0] none
    (by decide) (by decide) (by decide) (List.cons_ne_nil _ _) (Or.inl rfl)
  exact ⟨⟨by decide, by decide, by decide, List.cons_ne_nil _ _, Or.inl rfl⟩, h.1, h.2.1⟩

/-- C7 counterexample: the zero-hit request produces a 200 response whose
body carries neither a retrieved_docs nor a search_info key. -/
theorem claim_C7_cex :
    (runDirect cfg0 (some "q") "sk-key" "http://opensearch:9200" (.ok [])
      (.success []) (.ok (some "hi"))).status = 200
    ∧ ¬ ("retrieved_docs" ∈ DirectBody.keys
        (runDirect cfg0 (some "q") "sk-key" "http://opensearch:9200" (.ok [])
          (.success []) (.ok (some "hi"))).body)
    ∧ ¬ ("search_info" ∈ DirectBody.keys
        (runDirect cfg0 (some "q") "sk-key" "http://opensearch:9200" (.ok [])
          (.success []) (.ok (some "hi"))).body) :=
  ⟨rfl, by decide, by decide⟩

/-- C7 as amended: every direct-mode 200 response either is the full answer
object (answer, search_type semantic, docs_retrieved equal to the hit
count, the per-hit retrieved_docs array and the diagnostic search_info),
which happens exactly when at least one document was retrieved, or is the
zero-hit short-circuit object carrying only answer, search_type semantic
and docs_retrieved 0. -/
theorem claim_C7_amended (cfg : DirectConfig) (message : Option String) (apiKey url : String)
    (embed : EmbedOutcome) (search : SearchOutcome) (gen : GenOutcome)
    (h200 : (runDirect cfg message apiKey url embed search gen).status = 200) :
    (∃ (hits : List Hit) (vec : List Float) (ans : String),
        search = .success hits ∧ hits ≠ [] ∧ embed = .ok vec
        ∧ (runDirect cfg message apiKey url embed search gen).body
            = .full ans "semantic" hits.length (retrievedDocsOf hits) (searchInfoOf cfg vec)
        ∧ (retrievedDocsOf hits).length = hits.length)
    ∨ (search = .success []
        ∧ (runDirect cfg message apiKey url embed search gen).body
            = .noDocs "No relevant documents found for your question." "semantic" 0) := by
  cases hstm : strTruthy message with
  | false => simp [runDirect, hstm] at h200
  | true =>
    by_cases h2 : apiKey = ""
    · simp [runDirect, hstm, h2] at h200
    · by_cases h3 : url = ""
      · simp [runDirect, hstm, h2, h3] at h200
      · cases embed with
        | throwErr m => simp [runDirect, hstm, h2, h3] at h200
        | ok vec =>
          cases search with
          | fetchError => simp [runDirect, hstm, h2, h3] at h200
          | httpError s t => simp [runDirect, hstm, h2, h3] at h200
          | jsonError m => simp [runDirect, hstm, h2, h3] at h200
          | success hits =>
            cases hits with
            | nil =>
              exact Or.inr ⟨rfl, by simp [runDirect, hstm, h2, h3]⟩
            | cons a t =>
              cases gen with
              | throwErr m => simp [runDirect, hstm, h2, h3] at h200
              | ok content =>
                refine Or.inl ⟨a :: t, vec,
                  (match content with
                    | some s => if s = "" then "No response generated." else s
                    | none => "No response generated."),
                  rfl, List.cons_ne_nil a t, rfl, ?_, retrievedDocsOf_length _⟩
                simp [runDirect, hstm, h2, h3]
                cases content <;> rfl

/-- C3 counterexample: on a body whose outputs field is an empty array and
whose top-level text field is the non-empty string hello, shape one yields
no text, yet shape three is never tried: the normalized answer is the
fallback literal, not hello. -/
theorem claim_C3_cex :
    normalizeAnswer cexC3 = .ok (.str "No response received from the RAG system.")
    ∧ optTruthy (jField cexC3 "text") = true
    ∧ jField cexC3 "text" = some (.str "hello")
    ∧ ("No response received from the RAG system." : String) ≠ "hello" :=
  ⟨rfl, rfl, rfl, by decide⟩

/-- C3 as amended: normalization selects its shape by the first truthy
top-level field among outputs, result and text, rather than falling
through when the selected shape yields no text; the selected shape's
extraction is finalized by the falsy-answer substitution, and when no
field is truthy the answer is exactly the fallback literal.  The nested
body carrying 42 normalizes to 42. -/
theorem claim_C3_amended :
    normalizeAnswer ex42 = .ok (.str "42")
    ∧ (∀ d : JValue, d ≠ .null → optTruthy (jField d "outputs") = true →
        normalizeAnswer d
          = (scanOutputs ((jField d "outputs").getD .null)).map finalizeAnswer)
    ∧ (∀ d : JValue, d ≠ .null → optTruthy (jField d "outputs") = false →
        optTruthy (jField d "result") = true →
        normalizeAnswer d
          = .ok (finalizeAnswer (resultShape ((jField d "result").getD .null))))
    ∧ (∀ d : JValue, d ≠ .null → optTruthy (jField d "outputs") = false →
        optTruthy (jField d "result") = false →
        optTruthy (jField d "text") = true →
        normalizeAnswer d = .ok (finalizeAnswer ((jField d "text").getD .null)))
    ∧ (∀ d : JValue, d ≠ .null → optTruthy (jField d "outputs") = false →
        optTruthy (jField d "result") = false →
        optTruthy (jField d "text") = false →
        normalizeAnswer d
          = .ok (.str "No response received from the RAG system.")) := by
  refine ⟨rfl, ?_, ?_, ?_, ?_⟩
  · intro d hnn h1
    cases d <;> simp_all [normalizeAnswer, extractAnswer, jField, optTruthy]
  · intro d hnn h1 h2
    cases d with
    | null => exact absurd rfl hnn
    | obj fs =>
      rcases hr : jField (JValue.obj fs) "result" with - | r
      · rw [hr] at h2; cases h2
      · cases r <;>
          simp_all [normalizeAnswer, extractAnswer, resultShape, optTruthy, jTruthy,
            jField, Except.map]
        all_goals split_ifs <;> rfl
    | _ => simp_all [jField, optTruthy]
  · intro d hnn h1 h2 h3
    cases d <;> simp_all [normalizeAnswer, extractAnswer, jField, optTruthy, Except.map]
  · intro d hnn h1 h2 h3
    cases d <;>
      simp_all [normalizeAnswer, extractAnswer, finalizeAnswer, jTruthy, jField,
        optTruthy, Except.map]

/-- Witness for the amended C3: the nested 42 case and the text-shape
branch at a concrete body. -/
theorem claim_C3_amended_witness :
    ((JValue.obj [("text", JValue.str "plain")]) ≠ JValue.null)
    ∧ normalizeAnswer (.obj [("text", .str "plain")]) = .ok (.str "plain") := by
  have h := claim_C3_amended.2.2.2.1 (.obj [("text", .str "plain")])
    (fun hcon => JValue.noConfusion hcon) rfl rfl rfl
  exact ⟨fun hcon => JValue.noConfusion hcon, h.trans (by rfl)⟩

/-- C4 counterexample: with the skip-verification flag set to false-like,
the claim predicts skipped verification for the search-cluster client in
every environment, but the app client keeps verification enabled (it never
reads that flag); only the index-creation script skips. -/
theorem claim_C4_cex :
    getRejectUnauthorizedLib cexTls = true
    ∧ getRejectUnauthorizedScript cexTls = false :=
  ⟨by decide, by decide⟩

/-- C4 as amended: the index-creation script resolves verification with
the claimed precedence, equivalently it skips exactly when the
skip-verification flag is false-like, or the reject-unauthorized flag is
false-like, or the environment is non-production with an https endpoint;
the app client instead skips exactly when the reject-unauthorized flag
(defaulting to true) is false-like, ignoring the other variables. -/
theorem claim_C4_amended :
    (∀ e : TlsEnv, getRejectUnauthorizedScript e = false ↔
      (falseLike (lowerStr (e.sslVerify.getD "")) = true
        ∨ falseLike (lowerStr (e.sslReject.getD "")) = true
        ∨ (e.nodeEnv ≠ some "production"
            ∧ startsWithStr (lowerStr (trimStr (e.opensearchUrl.getD ""))) "https://"
                = true)))
    ∧ (∀ e : TlsEnv, getRejectUnauthorizedLib e = false ↔
        falseLike (lowerStr (e.sslReject.getD "true")) = true) := by
  constructor
  · intro e
    unfold getRejectUnauthorizedScript
    cases hv : falseLike (lowerStr (e.sslVerify.getD "")) <;>
    cases hr : falseLike (lowerStr (e.sslReject.getD "")) <;>
      simp [hv, hr]
  · intro e
    unfold getRejectUnauthorizedLib falseLike
    cases hb1 : (lowerStr (e.sslReject.getD "true") == "false") <;>
    cases hb2 : (lowerStr (e.sslReject.getD "true") == "0") <;>
    cases hb3 : (lowerStr (e.sslReject.getD "true") == "no") <;>
      simp [hb1, hb2, hb3]

/-- Witness for the amended C4: a non-production environment with an https
endpoint and no overrides skips in the script and verifies in the app
client. -/
theorem claim_C4_amended_witness :
    getRejectUnauthorizedScript tlsNonProd = false
    ∧ getRejectUnauthorizedLib tlsNonProd = true := by
  constructor
  · exact (claim_C4_amended.1 tlsNonProd).mpr (Or.inr (Or.inr ⟨by decide, by decide⟩))
  · decide

/-- C8: an upstream body whose trimmed text opens with an HTML preamble
makes the delegate route answer 502 with the HTML-page error message,
independently of whatever JSON.parse would have produced; the message
carries the missing-API-key guidance when no key is configured and the
invalid-key or wrong-flow-id guidance when one is. -/
theorem claim_C8 (cfg : DelegateConfig) (msg : String) (sid : Option String)
    (apiKey : String) (resp : UpstreamResponse) (uuid : String)
    (hm : msg ≠ "") (hhtml : isHtmlBody resp.text = true) :
    (runDelegate cfg (some msg) sid apiKey resp uuid).status = 502
    ∧ (runDelegate cfg (some msg) sid apiKey resp uuid).body = .error (htmlErrorMsg apiKey)
    ∧ (∀ p : Option JValue,
        runDelegate cfg (some msg) sid apiKey ⟨resp.status, resp.text, p⟩ uuid
          = runDelegate cfg (some msg) sid apiKey resp uuid)
    ∧ (apiKey = "" → containsStr (htmlErrorMsg apiKey) "API key" = true)
    ∧ (apiKey ≠ "" →
        containsStr (htmlErrorMsg apiKey) "LANGFLOW_API_KEY is valid" = true
        ∧ containsStr (htmlErrorMsg apiKey) "LANGFLOW_FLOW_ID" = true) := by
  refine ⟨?_, ?_, ?_, ?_, ?_⟩
  · simp [runDelegate, strTruthy, hm, hhtml]
  · simp [runDelegate, strTruthy, hm, hhtml]
  · intro p
    simp [runDelegate, strTruthy, hm, hhtml]
  · intro hk
    subst hk
    decide
  · intro hk
    have hmsg : htmlErrorMsg apiKey
        = "Langflow returned a page instead of JSON."
          ++ " Check that LANGFLOW_API_KEY is valid and LANGFLOW_FLOW_ID matches your flow in the Langflow UI."
          ++ " Also ensure LANGFLOW_URL is the base URL (e.g. http://localhost:7860) and the flow is built and running." := by
      simp [htmlErrorMsg, langflowAuthHint, hk]
    rw [hmsg]
    exact ⟨by decide, by decide⟩

/-- Witness for C8 at a concrete HTML login page with no API key. -/
theorem claim_C8_witness :
    (("hello" : String) ≠ "" ∧ isHtmlBody respHtml.text = true)
    ∧ (runDelegate dcfg0 (some "hello") none "" respHtml uuid0).status = 502
    ∧ (runDelegate dcfg0 (some "hello") none "" respHtml uuid0).body
        = .error (htmlErrorMsg "")
    ∧ containsStr (htmlErrorMsg "") "API key" = true := by
  have h := claim_C8 dcfg0 "hello" none "" respHtml uuid0 (by decide) (by rfl)
  exact ⟨⟨by decide, by rfl⟩, h.1, h.2.1, h.2.2.2.1 rfl⟩

/-- C9 counterexample: on a 401 whose error body carries a present but
empty detail field and a message field with text, the route builds the
message from the message field, not from the first present field. -/
theorem claim_C9_cex :
    (runDelegate dcfg0 (some "q") none "lf-key" resp401bad uuid0).status = 401
    ∧ (runDelegate dcfg0 (some "q") none "lf-key" resp401bad uuid0).body
        = .error "Langflow error: x"
    ∧ jField (.obj [("detail", .str ""), ("message", .str "x")]) "detail"
        = some (.str "")
    ∧ ("Langflow error: x" : String) ≠ "Langflow error: " :=
  ⟨rfl, rfl, rfl, by decide⟩

/-- C9 as amended: on a non-success upstream status that is not an HTML
page, a parseable JSON object error body yields the upstream status with a
message built from the first truthy of the detail, message and error
fields, with an Unknown error fallback; an unparseable body (or JSON null,
whose field access throws into the catch) yields the fallback message
naming only the status. -/
theorem claim_C9_amended (cfg : DelegateConfig) (msg : String) (sid : Option String)
    (apiKey uuid : String) (resp : UpstreamResponse)
    (hm : msg ≠ "") (hhtml : isHtmlBody resp.text = false)
    (hok : httpOk resp.status = false) :
    (∀ fs, resp.parsed = some (.obj fs) →
        runDelegate cfg (some msg) sid apiKey resp uuid
          = ⟨resp.status,
              .error ("Langflow error: " ++ jsToString (langflowErrorValue (.obj fs)))⟩)
    ∧ (resp.parsed = none →
        runDelegate cfg (some msg) sid apiKey resp uuid
          = ⟨resp.status, .error ("Langflow API error: " ++ toString resp.status)⟩)
    ∧ (resp.parsed = some .null →
        runDelegate cfg (some msg) sid apiKey resp uuid
          = ⟨resp.status, .error ("Langflow API error: " ++ toString resp.status)⟩)
    ∧ (∀ ed, optTruthy (jField ed "detail") = true →
        langflowErrorValue ed = (jField ed "detail").getD .null)
    ∧ (∀ ed, optTruthy (jField ed "detail") = false →
        optTruthy (jField ed "message") = true →
        langflowErrorValue ed = (jField ed "message").getD .null)
    ∧ (∀ ed, optTruthy (jField ed "detail") = false →
        optTruthy (jField ed "message") = false →
        optTruthy (jField ed "error") = true →
        langflowErrorValue ed = (jField ed "error").getD .null)
    ∧ (∀ ed, optTruthy (jField ed "detail") = false →
        optTruthy (jField ed "message") = false →
        optTruthy (jField ed "error") = false →
        langflowErrorValue ed = .str "Unknown error") := by
  refine ⟨?_, ?_, ?_, ?_, ?_, ?_, ?_⟩
  · intro fs hp
    simp [runDelegate, strTruthy, hm, hhtml, hok, hp]
  · intro hp
    simp [runDelegate, strTruthy, hm, hhtml, hok, hp]
  · intro hp
    simp [runDelegate, strTruthy, hm, hhtml, hok, hp]
  · intro ed h1
    simp [langflowErrorValue, h1]
  · intro ed h1 h2
    simp [langflowErrorValue, h1, h2]
  · intro ed h1 h2 h3
    simp [langflowErrorValue, h1, h2, h3]
  · intro ed h1 h2 h3
    simp [langflowErrorValue, h1, h2, h3]

/-- Witness for the amended C9: the 401 with detail invalid key yields
exactly status 401 and the Langflow error message from the spec test
catalogue. -/
theorem claim_C9_witness :
    (("q" : String) ≠ "" ∧ isHtmlBody resp401.text = false
      ∧ httpOk resp401.status = false)
    ∧ runDelegate dcfg0 (some "q") none "lf-key" resp401 uuid0
        = ⟨401, .error "Langflow error: invalid key"⟩ := by
  have h := (claim_C9_amended dcfg0 "q" none "lf-key" uuid0 resp401
    (by decide) (by decide) (by decide)).1 [("detail", .str "invalid key")] rfl
  exact ⟨⟨by decide, by decide, by decide⟩, h.trans (by rfl)⟩

/-- Auxiliary: bind on a successful Except value. -/
theorem exceptOkBind (a : JValue) (f : JValue → Except Unit JValue) :
    (Except.ok a >>= f) = f a := rfl

/-- Auxiliary: one inner-loop step at a non-null element overwrites the
running answer exactly when the element carries a recognized text field. -/
theorem stepInner_eq (answer v : JValue) (h : v ≠ JValue.null) :
    stepInner answer v = .ok ((innerExtract v).getD answer) := by
  cases v with
  | null => exact absurd rfl h
  | bool b => simp [stepInner, innerExtract, jField, jOptGet, optTruthy]
  | num n => simp [stepInner, innerExtract, jField, jOptGet, optTruthy]
  | str s => simp [stepInner, innerExtract, jField, jOptGet, optTruthy]
  | arr xs => simp [stepInner, innerExtract, jField, jOptGet, optTruthy]
  | obj fs =>
    rcases ht1 : jOptGet (jOptGet (jField (JValue.obj fs) "results") "message") "text"
      with - | x1 <;>
    rcases ht2 : jOptGet (jField (JValue.obj fs) "results") "text" with - | x2 <;>
    rcases ht3 : jOptGet (jField (JValue.obj fs) "message") "text" with - | x3 <;>
      simp [stepInner, innerExtract, ht1, ht2, ht3, optTruthy] <;>
      split_ifs <;> simp_all

/-- Auxiliary: the inner loop over null-free elements succeeds and yields
the last recognized text, or keeps the initial answer. -/
theorem foldlM_stepInner (l : List JValue) (h : ∀ v ∈ l, v ≠ JValue.null) :
    ∀ init : JValue, l.foldlM stepInner init
      = .ok (lastD (l.filterMap innerExtract) init) := by
  induction l with
  | nil => intro init; rfl
  | cons v t ih =>
    intro init
    have hv : v ≠ JValue.null := h v (List.mem_cons_self v t)
    have ht : ∀ w ∈ t, w ≠ JValue.null := fun w hw => h w (List.mem_cons_of_mem v hw)
    rw [List.foldlM_cons, stepInner_eq init v hv, exceptOkBind]
    cases hie : innerExtract v with
    | none =>
      rw [Option.getD_none, ih ht init, List.filterMap_cons_none hie]
    | some x =>
      rw [Option.getD_some, ih ht x, List.filterMap_cons_some hie]
      rfl

/-- Auxiliary: one outer-loop step at a well-formed element runs the inner
loop over its inner outputs. -/
theorem stepOuter_eq (init o : JValue) (h : goodOuter o) :
    stepOuter init o = .ok (lastD ((innersOf o).filterMap innerExtract) init) := by
  obtain ⟨hnn, hcase⟩ := h
  cases o with
  | null => exact absurd rfl hnn
  | bool b => simp [stepOuter, innersOf, jField, optTruthy, lastD]
  | num n => simp [stepOuter, innersOf, jField, optTruthy, lastD]
  | str s => simp [stepOuter, innersOf, jField, optTruthy, lastD]
  | arr xs => simp [stepOuter, innersOf, jField, optTruthy, lastD]
  | obj fs =>
    rcases hcase with hfalse | ⟨xs, hxs, hnulls⟩
    · rcases hf : jField (JValue.obj fs) "outputs" with - | v
      · simp [stepOuter, innersOf, hf, optTruthy, lastD]
      · rw [hf] at hfalse
        cases v <;> simp_all [stepOuter, innersOf, hf, optTruthy, jTruthy, lastD]
    · simp [stepOuter, innersOf, hxs, optTruthy, jTruthy, jIter,
        foldlM_stepInner xs hnulls init]

/-- Auxiliary: lastD distributes over append. -/
theorem lastD_append_eq (xs ys : List JValue) :
    ∀ d : JValue, lastD (xs ++ ys) d = lastD ys (lastD xs d) := by
  induction xs with
  | nil => intro d; rfl
  | cons a t ih => intro d; exact ih a

/-- Auxiliary: the outer loop over well-formed elements succeeds and yields
the last recognized text among all inner outputs, or keeps the initial
answer. -/
theorem foldlM_stepOuter (outs : List JValue) (h : ∀ o ∈ outs, goodOuter o) :
    ∀ init : JValue, outs.foldlM stepOuter init
      = .ok (lastD ((allInners outs).filterMap innerExtract) init) := by
  induction outs with
  | nil => intro init; rfl
  | cons o t ih =>
    intro init
    have ho := h o (List.mem_cons_self o t)
    have ht : ∀ w ∈ t, goodOuter w := fun w hw => h w (List.mem_cons_of_mem o hw)
    rw [List.foldlM_cons, stepOuter_eq init o ho, exceptOkBind, ih ht]
    have hall : allInners (o :: t) = innersOf o ++ allInners t := rfl
    rw [hall, List.filterMap_append, lastD_append_eq]

/-- C10: on a response with a top-level outputs array whose elements are
well formed, the scan visits every inner output in order and the
normalized answer is the text of the last inner output carrying a
recognized field (later matches overwrite earlier ones), falling back to
the literal when none matches; within one inner output,
results.message.text is preferred over results.text over message.text,
and every recognized text is truthy. -/
theorem claim_C10 (d : JValue) (outs : List JValue)
    (hout : jField d "outputs" = some (.arr outs))
    (hgood : ∀ o ∈ outs, goodOuter o) :
    normalizeAnswer d
      = .ok (finalizeAnswer
          (lastD ((allInners outs).filterMap innerExtract) (.str "")))
    ∧ (∀ v x, innerExtract v = some x → jTruthy x = true)
    ∧ (∀ v, optTruthy (jOptGet (jOptGet (jField v "results") "message") "text") = true →
        innerExtract v = jOptGet (jOptGet (jField v "results") "message") "text")
    ∧ (∀ v, optTruthy (jOptGet (jOptGet (jField v "results") "message") "text") = false →
        optTruthy (jOptGet (jField v "results") "text") = true →
        innerExtract v = jOptGet (jField v "results") "text")
    ∧ (∀ v, optTruthy (jOptGet (jOptGet (jField v "results") "message") "text") = false →
        optTruthy (jOptGet (jField v "results") "text") = false →
        optTruthy (jOptGet (jField v "message") "text") = true →
        innerExtract v = jOptGet (jField v "message") "text") := by
  refine ⟨?_, ?_, ?_, ?_, ?_⟩
  · cases d with
    | null => exact absurd hout (by simp [jField])
    | bool b => exact absurd hout (by simp [jField])
    | num n => exact absurd hout (by simp [jField])
    | str s => exact absurd hout (by simp [jField])
    | arr xs => exact absurd hout (by simp [jField])
    | obj fs =>
      have hscan := foldlM_stepOuter outs hgood (JValue.str "")
      simp [normalizeAnswer, extractAnswer, scanOutputs, hout, optTruthy, jTruthy,
        jIter, hscan, Except.map]
  · intro v x hvx
    simp only [innerExtract] at hvx
    split_ifs at hvx with h1 h2 h3
    · rw [hvx] at h1; simpa [optTruthy] using h1
    · rw [hvx] at h2; simpa [optTruthy] using h2
    · rw [hvx] at h3; simpa [optTruthy] using h3
  · intro v h1
    simp [innerExtract, h1]
  · intro v h1 h2
    simp [innerExtract, h1, h2]
  · intro v h1 h2 h3
    simp [innerExtract, h1, h2, h3]

/-- Witness for C10: with two matching inner outputs the later one wins. -/
theorem claim_C10_witness : normalizeAnswer exC10 = .ok (.str "second") := by
  have hgood : ∀ o ∈ [exC10out], goodOuter o := by
    intro o ho
    rw [List.mem_singleton] at ho
    subst ho
    refine ⟨fun hcon => JValue.noConfusion hcon,
      Or.inr ⟨[exC10in1, exC10in2], rfl, ?_⟩⟩
    intro v hv
    simp only [List.mem_cons, List.mem_singleton] at hv
    rcases hv with rfl | rfl | hv
    · exact fun hcon => JValue.noConfusion hcon
    · exact fun hcon => JValue.noConfusion hcon
    · cases hv
  exact ((claim_C10 exC10 [exC10out] rfl hgood).1).trans (by rfl)

/-- Witness for the amended C7 at a concrete two-hit request. -/
theorem claim_C7_amended_witness :
    (runDirect cfg0 (some "q") "sk-key" "http://opensearch:9200" (.ok [])
      (.success [hit0, hit1]) (.ok (some "the answer"))).status = 200
    ∧ ((∃ (hits : List Hit) (vec : List Float) (ans : String),
          SearchOutcome.success [hit0, hit1] = .success hits ∧ hits ≠ []
          ∧ EmbedOutcome.ok [] = .ok vec
          ∧ (runDirect cfg0 (some "q") "sk-key" "http://opensearch:9200" (.ok [])
              (.success [hit0, hit1]) (.ok (some "the answer"))).body
              = .full ans "semantic" hits.length
                  (retrievedDocsOf hits) (searchInfoOf cfg0 vec)
          ∧ (retrievedDocsOf hits).length = hits.length)
        ∨ (SearchOutcome.success [hit0, hit1] = .success []
            ∧ (runDirect cfg0 (some "q") "sk-key" "http://opensearch:9200" (.ok [])
                (.success [hit0, hit1]) (.ok (some "the answer"))).body
                = .noDocs "No relevant documents found for your question." "semantic" 0)) :=
  ⟨rfl, claim_C7_amended cfg0 (some "q") "sk-key" "http://opensearch:9200" (.ok [])
    (.success [hit0, hit1]) (.ok (some "the answer")) rfl⟩
